import Mathlib

/-!
# Verification of the spark_env data-movement pipeline

A shallow embedding of the two pipelines of this repository:

* `src/extract_data.py` — extract rows from SQL Server via Spark JDBC and
  write them as compressed Parquet (`extract_from_sql_server`,
  `save_as_parquet`, `main`);
* `src/restore_data.py` — load Parquet via DuckDB and insert the rows into a
  SQL Server table in batches (`load_parquet_to_pandas`, `get_sql_data_type`,
  `create_table_if_not_exists`, `insert_data_to_sql`, `main`).

External collaborators (the SQL endpoint, Spark, DuckDB, SQLAlchemy, pandas)
are modelled by their documented behaviour at the call sites the code uses:
row sets are lists, a destination table is its existence flag plus its rows,
and each externally caused failure point is a Boolean/predicate parameter.
Machine-level details (actual SQL text sent for inserts, wire formats) are
outside the scope of the claims and are not modelled.
-/

namespace SparkEnv

/-! ## Pandas dtypes and the SQLAlchemy type mapping (`restore_data.py`) -/

/-- The closed set of pandas column dtypes the restorer can see, as classified
by the `pd.api.types` predicates used in `get_sql_data_type`. -/
inductive PandasDType
  | int8 | int16 | int32 | int64
  | uint8 | uint16 | uint32 | uint64
  | float32 | float64
  | datetime64ns
  | boolDt | objectDt | categoryDt
deriving DecidableEq, Repr

/-- `pd.api.types.is_integer_dtype`: true exactly on the signed and unsigned
integer dtypes (pandas classifies `bool` as non-integer here). -/
def is_integer_dtype : PandasDType → Bool
  | .int8 | .int16 | .int32 | .int64
  | .uint8 | .uint16 | .uint32 | .uint64 => true
  | _ => false

/-- `pd.api.types.is_float_dtype`. -/
def is_float_dtype : PandasDType → Bool
  | .float32 | .float64 => true
  | _ => false

/-- `pd.api.types.is_datetime64_dtype`. -/
def is_datetime64_dtype : PandasDType → Bool
  | .datetime64ns => true
  | _ => false

/-- The SQLAlchemy column types that `get_sql_data_type` can return:
`Integer()`, `Float()`, `DATETIME2()` (the high-precision SQL Server datetime),
and `String(n)` (VARCHAR of bounded length `n`). -/
inductive SqlAlchemyType
  | IntegerT
  | FloatT
  | Datetime2T
  | StringT (length : Nat)
deriving DecidableEq, Repr

/-- `restore_data.py`, `get_sql_data_type(pandas_dtype, column_name)`:
map a pandas dtype to a SQLAlchemy type for SQL Server. The `column_name`
argument is accepted (as in the source) but never used. -/
def get_sql_data_type (pandas_dtype : PandasDType) (_column_name : String) :
    SqlAlchemyType :=
  if is_integer_dtype pandas_dtype then .IntegerT
  else if is_float_dtype pandas_dtype then .FloatT
  else if is_datetime64_dtype pandas_dtype then .Datetime2T
  else .StringT 255

/-! ## DataFrames, the destination table, and DDL/DML actions -/

/-- An in-memory pandas DataFrame: the ordered column schema
(`df.dtypes.items()`) and the rows (`df.iloc` slicing works on this list).
The row representation `α` is abstract; only ordering and count matter to
the claims. -/
structure DataFrame (α : Type) where
  cols : List (String × PandasDType)
  rows : List α
deriving DecidableEq, Repr

/-- The destination SQL Server table as the restorer observes it through the
engine: whether `inspector.get_table_names(schema=schema)` contains the target
name, and the rows currently stored in the table. -/
structure Destination (α : Type) where
  tableExists : Bool
  rows : List α
deriving DecidableEq, Repr

/-- DDL and DML actions the restorer issues against the destination, in
order. `createTable` records the column list handed to SQLAlchemy `Table`,
in source-column order. -/
inductive DbAction (α : Type)
  | dropTable
  | createTable (cols : List (String × SqlAlchemyType))
  | insertBatch (batch : List α)
deriving DecidableEq, Repr

/-- Outcome of a stateful step of the restorer: the destination state after
the step, the actions issued (in order) before the step returned or raised,
and the raised error message, if any. -/
structure RunResult (α : Type) where
  dest : Destination α
  trace : List (DbAction α)
  error : Option String
deriving DecidableEq, Repr

/-- SQLAlchemy keys a reflected table in `MetaData.tables` by its
schema-qualified name: `"schema.name"` when a schema is given, the bare name
otherwise (this is `Table.key`). -/
def qualifiedKey (schema : Option String) (table_name : String) : String :=
  match schema with
  | some s => s ++ "." ++ table_name
  | none => table_name

/-- Keys present in `metadata.tables` after
`metadata.reflect(bind=engine, only=[table_name], schema=schema)`. -/
def reflectedKeys (schema : Option String) (table_name : String) : List String :=
  [qualifiedKey schema table_name]

/-- The column list handed to `Table(...)` in `create_table_if_not_exists`:
one `Column(column_name, get_sql_data_type(dtype, column_name))` per entry of
`df.dtypes.items()`, in order. -/
def mappedColumns (cols : List (String × PandasDType)) :
    List (String × SqlAlchemyType) :=
  cols.map (fun c => (c.1, get_sql_data_type c.2 c.1))

/-- `restore_data.py`, `create_table_if_not_exists(engine, df, table_name,
schema, if_exists)`. Mirrors the source control flow:

* `table_exists = table_name in inspector.get_table_names(schema=schema)`;
* existing table, `if_exists == 'fail'` → raise
  `ValueError(f"Table {table_name} already exists")`;
* existing table, `if_exists == 'replace'` → reflect the table and drop it
  only if the bare `table_name` is a key of `metadata.tables` (the reflected
  key is schema-qualified, see `reflectedKeys`), then set the local
  `table_exists` to `False`;
* then `if not table_exists or if_exists == 'replace'` →
  `metadata.create_all(engine)`, whose default `checkfirst=True` creates the
  table only when the database does not already have it. -/
def create_table_if_not_exists {α : Type} (dest : Destination α)
    (dfCols : List (String × PandasDType)) (table_name : String)
    (schema : Option String) (if_exists : String) : RunResult α :=
  if dest.tableExists then
    if if_exists = "fail" then
      ⟨dest, [], some ("Table " ++ table_name ++ " already exists")⟩
    else if if_exists = "replace" then
      let doDrop := table_name ∈ reflectedKeys schema table_name
      let dest1 : Destination α :=
        if doDrop then ⟨false, []⟩ else dest
      let acts1 : List (DbAction α) := if doDrop then [.dropTable] else []
      -- local `table_exists` is now False; create_all runs with checkfirst
      if dest1.tableExists then
        ⟨dest1, acts1, none⟩
      else
        ⟨⟨true, []⟩, acts1 ++ [.createTable (mappedColumns dfCols)], none⟩
    else
      -- 'append' (or any other value): keep the table, no creation
      ⟨dest, [], none⟩
  else
    ⟨⟨true, []⟩, [.createTable (mappedColumns dfCols)], none⟩

/-! ## Python's `range(0, n, step)` and the batching loop -/

/-- Ascending arm of Python's `range(start, stop, step)` for `step > 0`,
with explicit fuel so the definition is structural (the loop adds `step ≥ 1`
each round, so `stop` rounds of fuel always suffice from `start = 0`). -/
def rangeStepF : Nat → Nat → Nat → Nat → List Nat
  | 0, _, _, _ => []
  | fuel + 1, start, stop, step =>
    if start < stop then start :: rangeStepF fuel (start + step) stop step
    else []

/-- Python `range(0, stop, step)` for a natural `stop` (the source always
calls it as `range(0, total_rows, batch_size)` with `total_rows = len(df) ≥ 0`):
`step == 0` raises `ValueError`, a negative `step` counting down from `0`
with `stop ≥ 0` yields the empty range, and a positive `step` counts up. -/
def pyRangeZero (stop : Nat) (step : Int) : Except String (List Nat) :=
  if step = 0 then .error "ValueError: range() arg 3 must not be zero"
  else if step < 0 then .ok []
  else .ok (rangeStepF stop 0 stop step.toNat)

/-- The batch slices taken by the insertion loop: for each
`i in range(0, len(rows), B)` the slice `df.iloc[i : min(i + B, len(rows))]`,
which on lists is `(rows.drop i).take B`. -/
def batchesOf {α : Type} (rows : List α) (B : Nat) : List (List α) :=
  (rangeStepF rows.length 0 rows.length B).map (fun i => (rows.drop i).take B)

/-- Run the batch inserts in order. The external endpoint is modelled by
`insertOk : Nat → Bool`, saying whether the `idx`-th insert call (0-based,
counted across the run) succeeds; each successful `to_sql(..., if_exists='append')`
call appends its batch to the table, and the first failing call raises,
leaving earlier batches committed and later batches unattempted. -/
def runBatches {α : Type} (insertOk : Nat → Bool) :
    Nat → Destination α → List (List α) → RunResult α
  | _, dest, [] => ⟨dest, [], none⟩
  | idx, dest, b :: rest =>
    if insertOk idx then
      let r := runBatches insertOk (idx + 1) ⟨dest.tableExists, dest.rows ++ b⟩ rest
      ⟨r.dest, .insertBatch b :: r.trace, r.error⟩
    else
      ⟨dest, [], some "batch insert failed"⟩

/-- `restore_data.py`, `insert_data_to_sql(engine, df, table_name, schema,
batch_size, if_exists)`: reconcile the table via
`create_table_if_not_exists`, then insert `df` in slices of `batch_size`
rows driven by `range(0, total_rows, batch_size)`. `batch_size` is an `Int`
because the CLI accepts any integer. -/
def insert_data_to_sql {α : Type} (insertOk : Nat → Bool) (dest : Destination α)
    (df : DataFrame α) (table_name : String) (schema : Option String)
    (batch_size : Int) (if_exists : String) : RunResult α :=
  let c := create_table_if_not_exists dest df.cols table_name schema if_exists
  match c.error with
  | some _ => c
  | none =>
    match pyRangeZero df.rows.length batch_size with
    | .error e => ⟨c.dest, c.trace, some e⟩
    | .ok starts =>
      let bs := starts.map (fun i => (df.rows.drop i).take batch_size.toNat)
      let r := runBatches insertOk 0 c.dest bs
      ⟨r.dest, c.trace ++ r.trace, r.error⟩

/-! ## The restorer's load stage (`load_parquet_to_pandas` and `main`) -/

/-- Observable events of the restorer's Parquet-loading stage. -/
inductive LoadEvent
  | duckOpen
  | readAttempt
  | duckClose
deriving DecidableEq, Repr

/-- `restore_data.py`, `load_parquet_to_pandas(parquet_path)`: check
`os.path.exists(parquet_path)` and raise `FileNotFoundError` before anything
else; otherwise open a DuckDB connection, run `read_parquet` (which may fail,
modelled by `readOk`), and close the connection in a `finally` block. -/
def load_parquet_to_pandas (parquet_path : String) (pathExists readOk : Bool) :
    List LoadEvent × Option String :=
  if pathExists = false then
    ([], some ("Parquet path not found: " ++ parquet_path))
  else if readOk then
    ([.duckOpen, .readAttempt, .duckClose], none)
  else
    ([.duckOpen, .readAttempt, .duckClose], some "duckdb read error")

/-- The load stage of `main` in `restore_data.py`: with `--transform-query`
the code opens DuckDB, executes `CREATE VIEW parquet_view AS SELECT * FROM
read_parquet(path)` followed by the transform query (both reads against the
path, with no prior existence check and no `try/finally`), and calls
`conn.close()` only after both succeed; without it, it delegates to
`load_parquet_to_pandas`. `queryOk` models whether the transform query
itself succeeds. -/
def restore_load_stage (transform_query : Option String) (parquet_path : String)
    (pathExists readOk queryOk : Bool) : List LoadEvent × Option String :=
  match transform_query with
  | some _ =>
    if pathExists = false then
      ([.duckOpen, .readAttempt], some "duckdb IO Error: no files found that match the pattern")
    else if readOk = false then
      ([.duckOpen, .readAttempt], some "duckdb read error")
    else if queryOk = false then
      ([.duckOpen, .readAttempt], some "transform query failed")
    else
      ([.duckOpen, .readAttempt, .duckClose], none)
  | none => load_parquet_to_pandas parquet_path pathExists readOk

/-! ## The extractor (`extract_data.py`) -/

/-- The read request `extract_from_sql_server` hands to `spark.read.jdbc`:
the JDBC url and the `table` argument. With a (truthy) `query` the code
passes `f"({query}) AS custom_query"`; otherwise it passes `table` as given
(absent options model Python `None`/empty-string falsiness). -/
structure JdbcRead where
  url : String
  tableArg : String
deriving DecidableEq, Repr

/-- `extract_data.py`, `extract_from_sql_server(spark, server, database,
table, username, password, query)`: build the JDBC url and choose the read
source — the wrapped custom query when `query` is supplied, else the table. -/
def extract_from_sql_server (server database : String) (table : Option String)
    (query : Option String) : JdbcRead :=
  let jdbc_url := "jdbc:sqlserver://" ++ server ++ ";databaseName=" ++ database
      ++ ";trustServerCertificate=true"
  match query with
  | some q => ⟨jdbc_url, "(" ++ q ++ ") AS custom_query"⟩
  | none =>
    match table with
    | some t => ⟨jdbc_url, t⟩
    | none => ⟨jdbc_url, "None"⟩

/-- Python ASCII lowercasing as used by `compression_method.lower()` on the
codec names in play (all ASCII). -/
def asciiLowerChar (c : Char) : Char :=
  if c.val ≥ 65 ∧ c.val ≤ 90 then Char.ofNat (c.toNat + 32) else c

/-- `str.lower()` on an ASCII string. -/
def asciiLower (s : String) : String :=
  String.mk (s.data.map asciiLowerChar)

/-- `extract_data.py`, `save_as_parquet`: the recognized codec names. -/
def valid_methods : List String := ["snappy", "gzip", "lzo", "zstd", "none"]

/-- Result of `save_as_parquet`: the codec actually passed to the Parquet
writer, whether the invalid-codec warning was logged, and whether the write
was performed (the codec check never aborts; it only substitutes). -/
structure SaveResult where
  codecUsed : String
  warned : Bool
  written : Bool
deriving DecidableEq, Repr

/-- `extract_data.py`, `save_as_parquet(df, output_path, compression_method,
partition_columns)` restricted to its codec handling: if
`compression_method.lower()` is not in `valid_methods`, log a warning and use
`"snappy"`; in every case proceed to write. -/
def save_as_parquet (compression_method : String) : SaveResult :=
  if asciiLower compression_method ∉ valid_methods then
    ⟨"snappy", true, true⟩
  else
    ⟨compression_method, false, true⟩

/-- Observable events of the extractor's `main`, in order. -/
inductive ExtractEvent
  | sparkSession
  | jdbcRead (tableArg : String)
  | parquetWrite (codec : String)
  | sparkStop
deriving DecidableEq, Repr

/-- `extract_data.py`, `main`, after argument parsing: first the selector
check `if not args.table and not args.query: parser.error(...)`, then the
connection-parameter checks, and only then the Spark session, the JDBC read,
the Parquet write, and the `finally: spark.stop()`. `parser.error` exits
before any connection attempt, so a rejected run has an empty event trace. -/
def extract_main (table query : Option String)
    (server database username password : Option String)
    (compression : String) : List ExtractEvent × Option String :=
  if table.isNone ∧ query.isNone then
    ([], some "Either --table or --query must be specified")
  else
    match [("server", server), ("database", database),
           ("username", username), ("password", password)].find?
        (fun p => p.2.isNone) with
    | some p => ([], some ("Missing SQL Server parameter: " ++ p.1))
    | none =>
      let rd := extract_from_sql_server (server.getD "") (database.getD "")
        table query
      let sv := save_as_parquet compression
      ([.sparkSession, .jdbcRead rd.tableArg, .parquetWrite sv.codecUsed,
        .sparkStop], none)

end SparkEnv

namespace SparkEnv

/-! ## Helper lemmas -/

/-- With policy `append`, reconciliation never raises. -/
theorem create_append_error_none {α : Type} (dest : Destination α)
    (cols : List (String × PandasDType)) (t : String) (s : Option String) :
    (create_table_if_not_exists dest cols t s "append").error = none := by
  cases h : dest.tableExists <;>
    simp [create_table_if_not_exists, h]

/-! ## Claims -/

/-- C1 (counterexample): supplying BOTH a table name and a custom query to
the extractor is not rejected — `extract_main` reports no configuration
error and proceeds to create the Spark session (a connection attempt). -/
theorem C1_counterexample :
    (extract_main (some "orders") (some "SELECT 1 AS x") (some "h") (some "db")
        (some "u") (some "p") "snappy").2 = none
    ∧ ExtractEvent.sparkSession ∈ (extract_main (some "orders")
        (some "SELECT 1 AS x") (some "h") (some "db") (some "u") (some "p")
        "snappy").1 := by
  decide

/-- C1 (amended): supplying NEITHER a table name nor a query is rejected as
a configuration error before any connection attempt (empty event trace);
supplying both is not rejected — the read proceeds using the query. -/
theorem C1_selector_validation
    (server database username password : Option String) (compression : String) :
    extract_main none none server database username password compression
      = ([], some "Either --table or --query must be specified") := by
  simp [extract_main]

/-- C2: with policy `fail` and an existing destination table, the run
raises an error naming the conflicting table, issues no DDL or insert
action, and leaves the destination rows unchanged. -/
theorem C2_fail_policy_aborts_early {α : Type} (insertOk : Nat → Bool)
    (dest : Destination α) (df : DataFrame α) (t : String) (s : Option String)
    (B : Int) (hE : dest.tableExists = true) :
    insert_data_to_sql insertOk dest df t s B "fail"
      = ⟨dest, [], some ("Table " ++ t ++ " already exists")⟩
    ∧ ∃ pre suf, "Table " ++ t ++ " already exists" = pre ++ t ++ suf := by
  refine ⟨?_, "Table ", " already exists", rfl⟩
  simp [insert_data_to_sql, create_table_if_not_exists, hE]

/-- C2 witness. -/
theorem C2_fail_policy_aborts_early_witness :
    insert_data_to_sql (fun _ => true) (⟨true, [7]⟩ : Destination Nat)
        ⟨[("id", .int64)], [1, 2]⟩ "orders" none 1000 "fail"
      = ⟨⟨true, [7]⟩, [], some ("Table " ++ "orders" ++ " already exists")⟩ :=
  (C2_fail_policy_aborts_early (fun _ => true) ⟨true, [7]⟩
    ⟨[("id", .int64)], [1, 2]⟩ "orders" none 1000 rfl).1

/-- C4: the SchemaMapper is deterministic (independent of the column name)
and follows the precedence integer → `Integer`, float → `Float`,
datetime64 → `DATETIME2`, everything else → `String 255`; every dtype is
mapped, none rejected. -/
theorem C4_schema_mapper_total (d : PandasDType) (c1 c2 : String) :
    get_sql_data_type d c1 = get_sql_data_type d c2
    ∧ (is_integer_dtype d = true → get_sql_data_type d c1 = .IntegerT)
    ∧ (is_integer_dtype d = false → is_float_dtype d = true →
        get_sql_data_type d c1 = .FloatT)
    ∧ (is_integer_dtype d = false → is_float_dtype d = false →
        is_datetime64_dtype d = true → get_sql_data_type d c1 = .Datetime2T)
    ∧ (is_integer_dtype d = false → is_float_dtype d = false →
        is_datetime64_dtype d = false → get_sql_data_type d c1 = .StringT 255) := by
  cases d <;>
    simp [get_sql_data_type, is_integer_dtype, is_float_dtype, is_datetime64_dtype]

/-- C4 witness: the precedence evaluated on one dtype of each class. -/
theorem C4_schema_mapper_total_witness :
    get_sql_data_type .int64 "a" = .IntegerT
    ∧ get_sql_data_type .float32 "b" = .FloatT
    ∧ get_sql_data_type .datetime64ns "c" = .Datetime2T
    ∧ get_sql_data_type .objectDt "d" = .StringT 255 :=
  ⟨(C4_schema_mapper_total .int64 "a" "x").2.1 rfl,
   (C4_schema_mapper_total .float32 "b" "x").2.2.1 rfl rfl,
   (C4_schema_mapper_total .datetime64ns "c" "x").2.2.2.1 rfl rfl rfl,
   (C4_schema_mapper_total .objectDt "d" "x").2.2.2.2 rfl rfl rfl⟩

/-- C5: the Parquet write always proceeds; a recognized codec name is used
as supplied, an unrecognized one (after lowercasing) is replaced by
`snappy` with a warning — never an error. -/
theorem C5_codec_fallback (m : String) :
    (save_as_parquet m).written = true
    ∧ (m ∈ valid_methods → save_as_parquet m = ⟨m, false, true⟩)
    ∧ (asciiLower m ∉ valid_methods →
        save_as_parquet m = ⟨"snappy", true, true⟩) := by
  refine ⟨?_, ?_, ?_⟩
  · by_cases h : asciiLower m ∈ valid_methods <;>
      simp [save_as_parquet, h]
  · intro hm
    have hlow : asciiLower m = m := by
      simp [valid_methods] at hm
      rcases hm with rfl | rfl | rfl | rfl | rfl <;> decide
    simp [save_as_parquet, hlow, hm]
  · intro h
    simp [save_as_parquet, h]

/-- C5 witness: a recognized codec is kept, an unrecognized one falls back
to snappy with a warning. -/
theorem C5_codec_fallback_witness :
    save_as_parquet "gzip" = ⟨"gzip", false, true⟩
    ∧ save_as_parquet "brotli" = ⟨"snappy", true, true⟩ :=
  ⟨(C5_codec_fallback "gzip").2.1 (by decide),
   (C5_codec_fallback "brotli").2.2 (by decide)⟩

/-- C6 (counterexample): with a transformation query and a missing archive
path, the load stage attempts the read (no existence pre-check) and its
failure is not the path-not-found error. -/
theorem C6_counterexample :
    LoadEvent.readAttempt ∈ (restore_load_stage (some "SELECT 1")
        "/data/missing" false true true).1
    ∧ (restore_load_stage (some "SELECT 1") "/data/missing" false true true).2
        ≠ some ("Parquet path not found: " ++ "/data/missing") := by
  decide

/-- C6 (amended): without a transformation query, a missing archive path
fails with the path-not-found error before any read attempt; with one, the
path is handed to the read directly and the failure comes from the read. -/
theorem C6_path_check_without_transform (p : String) (readOk queryOk : Bool) :
    restore_load_stage none p false readOk queryOk
      = ([], some ("Parquet path not found: " ++ p))
    ∧ LoadEvent.readAttempt ∉ (restore_load_stage none p false readOk queryOk).1 := by
  constructor <;> simp [restore_load_stage, load_parquet_to_pandas]

/-- C7: at the failing input — policy `replace`, explicit schema `dbo`,
destination table already present with rows `[99, 98]` — the run issues no
drop and no create (the reflected key is schema-qualified, the guard checks
the bare name, and `create_all`'s checkfirst then skips), and the new rows
are appended after the old ones instead of replacing them. -/
theorem C7_replace_with_schema_skips_drop :
    insert_data_to_sql (fun _ => true) (⟨true, [99, 98]⟩ : Destination Nat)
        ⟨[("id", .int64), ("name", .objectDt)], [1, 2, 3]⟩
        "orders" (some "dbo") 1000 "replace"
      = ⟨⟨true, [99, 98, 1, 2, 3]⟩, [DbAction.insertBatch [1, 2, 3]], none⟩ := by
  decide

/-- C8: on the transform-query load path a failing transform query leaves
the DuckDB connection open (no `try/finally` around it), unlike
`load_parquet_to_pandas`, which closes it even when the read fails. -/
theorem C8_transform_path_leaks_connection :
    LoadEvent.duckOpen ∈ (restore_load_stage (some "SELECT bad") "/data/p"
        true true false).1
    ∧ LoadEvent.duckClose ∉ (restore_load_stage (some "SELECT bad") "/data/p"
        true true false).1
    ∧ (restore_load_stage (some "SELECT bad") "/data/p" true true false).2 ≠ none
    ∧ LoadEvent.duckClose ∈ (load_parquet_to_pandas "/data/p" true false).1 := by
  decide

/-- C9: when both a table name and a query are supplied, the extractor
reads from the query wrapped as `(query) AS custom_query`; the table name
has no effect on the read request. -/
theorem C9_query_takes_precedence (server database t q : String) :
    extract_from_sql_server server database (some t) (some q)
      = extract_from_sql_server server database none (some q)
    ∧ (extract_from_sql_server server database (some t) (some q)).tableArg
      = "(" ++ q ++ ") AS custom_query" := by
  exact ⟨rfl, rfl⟩

end SparkEnv

namespace SparkEnv

theorem rangeStepF_of_stop_le (f a n B : Nat) (h : n ≤ a) :
    rangeStepF f a n B = [] := by
  cases f with
  | zero => rfl
  | succ f => simp only [rangeStepF, if_neg (by omega : ¬ a < n)]

/-- With enough fuel (`stop - start` steps always suffice when the stride is
positive), `rangeStepF` does not depend on the fuel. -/
theorem rangeStepF_congr_fuel (B : Nat) (hB : 0 < B) :
    ∀ (f f' a n : Nat), n - a ≤ f → n - a ≤ f' →
      rangeStepF f a n B = rangeStepF f' a n B := by
  intro f
  induction f with
  | zero =>
    intro f' a n h h'
    rw [rangeStepF_of_stop_le f' a n B (by omega)]
    rfl
  | succ f ih =>
    intro f' a n h h'
    by_cases hlt : a < n
    · cases f' with
      | zero => omega
      | succ f'' =>
        simp only [rangeStepF, if_pos hlt]
        rw [ih f'' (a + B) n (by omega) (by omega)]
    · rw [rangeStepF_of_stop_le (f + 1) a n B (by omega),
        rangeStepF_of_stop_le f' a n B (by omega)]

/-- Shifting the window of `rangeStepF` shifts every element. -/
theorem rangeStepF_shift (B c : Nat) :
    ∀ (f a n : Nat), rangeStepF f (a + c) (n + c) B
      = (rangeStepF f a n B).map (· + c) := by
  intro f
  induction f with
  | zero => intro a n; rfl
  | succ f ih =>
    intro a n
    by_cases hlt : a < n
    · simp only [rangeStepF, if_pos (by omega : a + c < n + c), if_pos hlt,
        List.map_cons]
      have e : a + c + B = a + B + c := by omega
      rw [e, ih (a + B) n]
    · simp only [rangeStepF, if_neg (by omega : ¬ a + c < n + c), if_neg hlt,
        List.map_nil]

theorem batchesOf_nil (α : Type) (B : Nat) : batchesOf ([] : List α) B = [] := rfl

/-- A nonempty list splits as its first batch followed by the batches of the
rest, mirroring one iteration of the insertion loop. -/
theorem batchesOf_cons {α : Type} (B : Nat) (hB : 0 < B) (l : List α)
    (hl : l ≠ []) :
    batchesOf l B = l.take B :: batchesOf (l.drop B) B := by
  obtain ⟨m, hm⟩ : ∃ m, l.length = m + 1 :=
    ⟨l.length - 1, by have := List.length_pos.2 hl; omega⟩
  unfold batchesOf
  rw [List.length_drop, hm]
  simp only [rangeStepF, if_pos (Nat.succ_pos m), Nat.zero_add, List.map_cons,
    List.drop_zero]
  congr 1
  by_cases hBm : m + 1 ≤ B
  · rw [rangeStepF_of_stop_le m B (m + 1) B hBm]
    have h0 : m + 1 - B = 0 := by omega
    rw [h0]
    rfl
  · have hsplit : rangeStepF m B (m + 1) B
        = (rangeStepF m 0 (m + 1 - B) B).map (· + B) := by
      have h1 : m + 1 = (m + 1 - B) + B := by omega
      calc rangeStepF m B (m + 1) B
          = rangeStepF m (0 + B) ((m + 1 - B) + B) B := by
            rw [Nat.zero_add, ← h1]
        _ = (rangeStepF m 0 (m + 1 - B) B).map (· + B) :=
            rangeStepF_shift B B m 0 (m + 1 - B)
    rw [hsplit,
      rangeStepF_congr_fuel B hB m (m + 1 - B) 0 (m + 1 - B) (by omega) (by omega),
      List.map_map]
    apply List.map_congr_left
    intro j _
    simp only [Function.comp_apply]
    rw [List.drop_drop, Nat.add_comm j B]

/-- The insertion loop produces `ceil(N / B)` batches. -/
theorem batchesOf_length {α : Type} (B : Nat) (hB : 0 < B) (l : List α) :
    (batchesOf l B).length = (l.length + B - 1) / B := by
  suffices h : ∀ (n : Nat) (l : List α), l.length ≤ n →
      (batchesOf l B).length = (l.length + B - 1) / B from h l.length l le_rfl
  intro n
  induction n with
  | zero =>
    intro l hl
    have h0 : l = [] := List.length_eq_zero.1 (by omega)
    subst h0
    simp only [batchesOf_nil, List.length_nil]
    exact (Nat.div_eq_of_lt (by omega)).symm
  | succ n ih =>
    intro l hl
    rcases eq_or_ne l [] with rfl | hne
    · simp only [batchesOf_nil, List.length_nil]
      exact (Nat.div_eq_of_lt (by omega)).symm
    · have hlen : 0 < l.length := List.length_pos.2 hne
      rw [batchesOf_cons B hB l hne, List.length_cons,
        ih (l.drop B) (by rw [List.length_drop]; omega), List.length_drop]
      have key : (l.length + B - 1) / B = (l.length - 1) / B + 1 := by
        have h1 : l.length + B - 1 = (l.length - 1) + B := by omega
        rw [h1, Nat.add_div_right _ hB]
      by_cases hmb : l.length ≤ B
      · have h2 : l.length - B = 0 := by omega
        rw [h2, key]
        have h3 : (l.length - 1) / B = 0 := Nat.div_eq_of_lt (by omega)
        have h4 : (0 + B - 1) / B = 0 := Nat.div_eq_of_lt (by omega)
        omega
      · have h4 : l.length - B + B - 1 = l.length - 1 := by omega
        rw [h4, key]

/-- The `i`-th batch is the slice `rows[i * B : i * B + B]`. -/
theorem batchesOf_getElem {α : Type} (B : Nat) (hB : 0 < B) :
    ∀ (l : List α) (i : Nat), i < (batchesOf l B).length →
      (batchesOf l B)[i]? = some ((l.drop (i * B)).take B) := by
  suffices h : ∀ (n : Nat) (l : List α), l.length ≤ n → ∀ (i : Nat),
      i < (batchesOf l B).length →
      (batchesOf l B)[i]? = some ((l.drop (i * B)).take B) from
    fun l => h l.length l le_rfl
  intro n
  induction n with
  | zero =>
    intro l hl i hi
    have h0 : l = [] := List.length_eq_zero.1 (by omega)
    subst h0
    simp [batchesOf_nil] at hi
  | succ n ih =>
    intro l hl i hi
    rcases eq_or_ne l [] with rfl | hne
    · simp [batchesOf_nil] at hi
    · have e := batchesOf_cons B hB l hne
      rw [e] at hi ⊢
      cases i with
      | zero => simp
      | succ i =>
        rw [List.getElem?_cons_succ,
          ih (l.drop B) (by rw [List.length_drop]; omega) i
            (by simpa using hi)]
        rw [List.drop_drop]
        have e2 : B + i * B = (i + 1) * B := by
          rw [Nat.succ_mul, Nat.add_comm]
        rw [e2]

end SparkEnv

namespace SparkEnv

/-- The worked example: 2500 rows with batch size 1000 give exactly three
batches, of 1000, 1000 and 500 rows. -/
theorem batches_2500_1000 :
    (batchesOf (List.replicate 2500 (0 : Nat)) 1000).map List.length
      = [1000, 1000, 500] := by
  have hlen : (List.replicate 2500 (0 : Nat)).length = 2500 :=
    List.length_replicate _ _
  have h1 : List.replicate 2500 (0 : Nat) ≠ [] := by
    intro h; rw [h] at hlen; exact absurd hlen (by norm_num)
  have hr1 : ((List.replicate 2500 (0 : Nat)).drop 1000).length = 1500 := by
    rw [List.length_drop, hlen]
  have h2 : (List.replicate 2500 (0 : Nat)).drop 1000 ≠ [] := by
    intro h; rw [h] at hr1; exact absurd hr1 (by norm_num)
  have hr2 : (((List.replicate 2500 (0 : Nat)).drop 1000).drop 1000).length = 500 := by
    rw [List.length_drop, hr1]
  have h3 : ((List.replicate 2500 (0 : Nat)).drop 1000).drop 1000 ≠ [] := by
    intro h; rw [h] at hr2; exact absurd hr2 (by norm_num)
  have hr3 : ((((List.replicate 2500 (0 : Nat)).drop 1000).drop 1000).drop 1000).length
      = 0 := by
    rw [List.length_drop, hr2]
  have h4 : (((List.replicate 2500 (0 : Nat)).drop 1000).drop 1000).drop 1000 = [] :=
    List.length_eq_zero.1 hr3
  rw [batchesOf_cons 1000 (by norm_num) _ h1,
    batchesOf_cons 1000 (by norm_num) _ h2,
    batchesOf_cons 1000 (by norm_num) _ h3,
    h4, batchesOf_nil]
  simp only [List.map_cons, List.map_nil, List.length_take]
  rw [hlen, hr1, hr2]
  decide

/-- When every insert call succeeds, the loop appends all batches in order. -/
theorem runBatches_all_ok {α : Type} (insertOk : Nat → Bool)
    (hok : ∀ j, insertOk j = true) :
    ∀ (bs : List (List α)) (idx : Nat) (dest : Destination α),
      runBatches insertOk idx dest bs
        = ⟨⟨dest.tableExists, dest.rows ++ bs.flatten⟩, bs.map .insertBatch, none⟩ := by
  intro bs
  induction bs with
  | nil => intro idx dest; simp [runBatches]
  | cons b rest ih =>
    intro idx dest
    simp [runBatches, hok idx, ih (idx + 1) ⟨dest.tableExists, dest.rows ++ b⟩,
      List.append_assoc]

/-- The first failing insert call stops the run: the earlier batches stay
committed, nothing later is attempted. -/
theorem runBatches_fail_at {α : Type} (insertOk : Nat → Bool) :
    ∀ (bs : List (List α)) (k idx : Nat) (dest : Destination α),
      k < bs.length →
      (∀ j, j < k → insertOk (idx + j) = true) →
      insertOk (idx + k) = false →
      runBatches insertOk idx dest bs
        = ⟨⟨dest.tableExists, dest.rows ++ (bs.take k).flatten⟩,
           (bs.take k).map .insertBatch, some "batch insert failed"⟩ := by
  intro bs
  induction bs with
  | nil => intro k idx dest hk; simp at hk
  | cons b rest ih =>
    intro k idx dest hk hpre hfail
    cases k with
    | zero =>
      have h0 : insertOk idx = false := by simpa using hfail
      simp [runBatches, h0]
    | succ k =>
      have h0 : insertOk idx = true := by
        have := hpre 0 (Nat.succ_pos k)
        simpa using this
      have hrest := ih k (idx + 1) ⟨dest.tableExists, dest.rows ++ b⟩
        (by simpa using hk)
        (fun j hj => by
          have e : idx + 1 + j = idx + (j + 1) := by omega
          rw [e]
          exact hpre (j + 1) (by omega))
        (by
          have e : idx + 1 + k = idx + (k + 1) := by omega
          rw [e]
          exact hfail)
      simp [runBatches, h0, hrest, List.append_assoc]

/-- With a positive batch size and policy `append` against an existing
table, `insert_data_to_sql` is exactly the batch loop over `batchesOf`. -/
theorem insert_append_eq_runBatches {α : Type} (insertOk : Nat → Bool)
    (dest : Destination α) (df : DataFrame α) (t : String) (s : Option String)
    (B : Nat) (hB : 0 < B) (hE : dest.tableExists = true) :
    insert_data_to_sql insertOk dest df t s (B : Int) "append"
      = runBatches insertOk 0 dest (batchesOf df.rows B) := by
  have hc : create_table_if_not_exists dest df.cols t s "append"
      = ⟨dest, [], none⟩ := by
    simp [create_table_if_not_exists, hE]
  have hne : ((B : Nat) : Int) ≠ 0 := by
    exact_mod_cast Nat.pos_iff_ne_zero.1 hB
  have hnl : ¬ (((B : Nat) : Int) < 0) := not_lt.2 (Int.natCast_nonneg B)
  simp only [insert_data_to_sql, hc]
  simp only [pyRangeZero, if_neg hne, if_neg hnl, Int.toNat_natCast]
  simp [batchesOf]

/-- Size of the final batch when the batch size does not divide the row
count. -/
theorem last_batch_size (n B : Nat) (hB : 0 < B) (hmod : n % B ≠ 0) :
    min B (n - ((n - 1) / B) * B) = n % B := by
  have hq0 : B * (n / B) + n % B = n := Nat.div_add_mod n B
  have hrlt : n % B < B := Nat.mod_lt _ hB
  have hr1 : 1 ≤ n % B := Nat.pos_of_ne_zero hmod
  have hq : (n - 1) / B = n / B := by
    have hle : n / B ≤ (n - 1) / B := by
      rw [Nat.le_div_iff_mul_le hB, Nat.mul_comm]
      omega
    have hlt2 : (n - 1) / B < n / B + 1 := by
      rw [Nat.div_lt_iff_lt_mul hB, Nat.add_mul, Nat.one_mul, Nat.mul_comm]
      omega
    omega
  rw [hq, Nat.mul_comm]
  omega

end SparkEnv

namespace SparkEnv

/-- C3: with any positive batch size `B` (1000 being the CLI default),
insertion proceeds in `ceil(N / B)` sequential batches; every batch except
possibly the last is the slice `rows[i*B : i*B + B]` of exactly `B` rows;
the last batch has `N % B` rows when `N % B ≠ 0`; 2500 rows with `B = 1000`
give exactly the batches 1000, 1000, 500; when all insert calls succeed all
batches are appended in order, and a failure on the insert call of batch `k`
(0-based) leaves exactly the rows of batches `0..k-1` committed and nothing
from later batches. -/
theorem C3_batch_sizes_and_partial_failure {α : Type} (insertOk : Nat → Bool)
    (dest : Destination α) (df : DataFrame α) (t : String) (s : Option String)
    (B : Nat) (hB : 0 < B) (hE : dest.tableExists = true) :
    (batchesOf df.rows B).length = (df.rows.length + B - 1) / B
    ∧ (∀ i, i + 1 < (batchesOf df.rows B).length →
        (batchesOf df.rows B)[i]? = some ((df.rows.drop (i * B)).take B)
        ∧ ((df.rows.drop (i * B)).take B).length = B)
    ∧ (df.rows.length % B ≠ 0 → ∀ lb,
        (batchesOf df.rows B).getLast? = some lb →
        lb.length = df.rows.length % B)
    ∧ (batchesOf (List.replicate 2500 (0 : Nat)) 1000).map List.length
        = [1000, 1000, 500]
    ∧ ((∀ j, insertOk j = true) →
        insert_data_to_sql insertOk dest df t s (B : Int) "append"
          = ⟨⟨true, dest.rows ++ (batchesOf df.rows B).flatten⟩,
             (batchesOf df.rows B).map .insertBatch, none⟩)
    ∧ (∀ k, k < (batchesOf df.rows B).length →
        (∀ j, j < k → insertOk j = true) → insertOk k = false →
        insert_data_to_sql insertOk dest df t s (B : Int) "append"
          = ⟨⟨true, dest.rows ++ ((batchesOf df.rows B).take k).flatten⟩,
             ((batchesOf df.rows B).take k).map .insertBatch,
             some "batch insert failed"⟩) := by
  have hL : (batchesOf df.rows B).length = (df.rows.length + B - 1) / B :=
    batchesOf_length B hB _
  refine ⟨hL, ?_, ?_, batches_2500_1000, ?_, ?_⟩
  · intro i h
    refine ⟨batchesOf_getElem B hB df.rows i (by omega), ?_⟩
    rw [List.length_take, List.length_drop]
    rw [hL] at h
    have hn1 : 0 < df.rows.length := by
      by_contra h0
      have hn0 : df.rows.length = 0 := by omega
      rw [hn0] at h
      have hz : (0 + B - 1) / B = 0 := Nat.div_eq_of_lt (by omega)
      omega
    have key : (df.rows.length + B - 1) / B = (df.rows.length - 1) / B + 1 := by
      have h1 : df.rows.length + B - 1 = (df.rows.length - 1) + B := by omega
      rw [h1, Nat.add_div_right _ hB]
    rw [key] at h
    have h5 : i + 1 ≤ (df.rows.length - 1) / B := by omega
    have h6 : (i + 1) * B ≤ df.rows.length - 1 :=
      (Nat.le_div_iff_mul_le hB).1 h5
    rw [Nat.succ_mul] at h6
    omega
  · intro hmod lb hlast
    have hn1 : 0 < df.rows.length := by
      rcases Nat.eq_zero_or_pos df.rows.length with h0 | h0
      · rw [h0] at hmod; simp at hmod
      · exact h0
    have key : (df.rows.length + B - 1) / B = (df.rows.length - 1) / B + 1 := by
      have h1 : df.rows.length + B - 1 = (df.rows.length - 1) + B := by omega
      rw [h1, Nat.add_div_right _ hB]
    have hidx : (batchesOf df.rows B).length - 1 = (df.rows.length - 1) / B := by
      rw [hL, key, Nat.add_sub_cancel]
    have hlt : (df.rows.length - 1) / B < (batchesOf df.rows B).length := by
      rw [hL, key]
      exact Nat.lt_succ_self _
    rw [List.getLast?_eq_getElem?, hidx,
      batchesOf_getElem B hB df.rows _ hlt] at hlast
    have hlb : lb = (df.rows.drop ((df.rows.length - 1) / B * B)).take B := by
      injection hlast with h
      exact h.symm
    rw [hlb, List.length_take, List.length_drop]
    exact last_batch_size df.rows.length B hB hmod
  · intro hok
    rw [insert_append_eq_runBatches insertOk dest df t s B hB hE,
      runBatches_all_ok insertOk hok, hE]
  · intro k hk hpre hfail
    rw [insert_append_eq_runBatches insertOk dest df t s B hB hE,
      runBatches_fail_at insertOk (batchesOf df.rows B) k 0 dest hk
        (fun j hj => by simpa using hpre j hj) (by simpa using hfail), hE]

/-- C3 witness: five rows with batch size 2 are inserted as the batches
`[10, 20]`, `[30, 40]`, `[50]`. -/
theorem C3_batch_sizes_and_partial_failure_witness :
    insert_data_to_sql (fun _ => true) (⟨true, []⟩ : Destination Nat)
        ⟨[("id", .int64)], [10, 20, 30, 40, 50]⟩ "t" none ((2 : Nat) : Int)
        "append"
      = ⟨⟨true, [10, 20, 30, 40, 50]⟩,
         [.insertBatch [10, 20], .insertBatch [30, 40], .insertBatch [50]],
         none⟩ := by
  have h := (C3_batch_sizes_and_partial_failure (fun _ => true)
    (⟨true, []⟩ : Destination Nat) ⟨[("id", .int64)], [10, 20, 30, 40, 50]⟩
    "t" none 2 (by decide) rfl).2.2.2.2.1 (fun _ => rfl)
  exact h.trans (by decide)

/-- C10: a batch size of 0 makes `range` raise `ValueError` after the
table-existence reconciliation has run but before any row is inserted, and
any negative batch size makes the loop run zero times, returning normally
with no insert action. -/
theorem C10_zero_and_negative_batch_size {α : Type} (insertOk : Nat → Bool)
    (dest : Destination α) (df : DataFrame α) (t : String) (s : Option String)
    (bneg : Int) (hneg : bneg < 0) (_hrows : df.rows ≠ []) :
    insert_data_to_sql insertOk dest df t s 0 "append"
      = ⟨(create_table_if_not_exists dest df.cols t s "append").dest,
         (create_table_if_not_exists dest df.cols t s "append").trace,
         some "ValueError: range() arg 3 must not be zero"⟩
    ∧ insert_data_to_sql insertOk dest df t s bneg "append"
      = ⟨(create_table_if_not_exists dest df.cols t s "append").dest,
         (create_table_if_not_exists dest df.cols t s "append").trace,
         none⟩ := by
  have hc := create_append_error_none dest df.cols t s
  have hne : bneg ≠ 0 := by omega
  rcases hcr : create_table_if_not_exists dest df.cols t s "append"
    with ⟨cd, ct, ce⟩
  rw [hcr] at hc
  simp only at hc
  subst hc
  constructor
  · simp [insert_data_to_sql, hcr, pyRangeZero]
  · simp [insert_data_to_sql, hcr, pyRangeZero, hne, hneg, runBatches]

/-- C10 witness: a freshly created table (reconciliation ran: the create
action is in the trace), then the zero batch size raises and the negative
batch size inserts nothing. -/
theorem C10_zero_and_negative_batch_size_witness :
    insert_data_to_sql (fun _ => true) (⟨false, []⟩ : Destination Nat)
        ⟨[("id", .int64)], [1, 2, 3]⟩ "t" none 0 "append"
      = ⟨⟨true, []⟩, [.createTable [("id", .IntegerT)]],
         some "ValueError: range() arg 3 must not be zero"⟩
    ∧ insert_data_to_sql (fun _ => true) (⟨false, []⟩ : Destination Nat)
        ⟨[("id", .int64)], [1, 2, 3]⟩ "t" none (-5) "append"
      = ⟨⟨true, []⟩, [.createTable [("id", .IntegerT)]], none⟩ := by
  have h := C10_zero_and_negative_batch_size (fun _ => true)
    (⟨false, []⟩ : Destination Nat) ⟨[("id", .int64)], [1, 2, 3]⟩ "t" none
    (-5) (by decide) (by decide)
  exact ⟨h.1.trans (by decide), h.2.trans (by decide)⟩

end SparkEnv
